import Mathlib

/-
Verification of the agent coordination substrate: a shallow embedding of
the shared state store (`shared_memory.py`), the event/message bus
(`agent_message.py`), the sequential thinking engine
(`sequential_thinking.py`) and the reflection agent's progress scoring
(`reflection_agent.py`).

Conventions of the embedding:
* Python runtime values stored in the shared memory or in message payloads
  are modelled by `PyVal` (None, bool, int, float, str, list, dict).
  Floats carry rationals: every float literal appearing in the sources
  (0.2, 0.4, 0.6, 0.8, 1.0, 0.1, ...) is exactly representable, and no
  arithmetic in the verified paths can introduce rounding.
* Python dicts are insertion-ordered association lists (CPython order);
  equality is modelled structurally.
* Fallible Python code (raising KeyError, TypeError, AttributeError,
  ValueError, asyncio.TimeoutError) is modelled in `Except String`, the
  error string naming the exception class.
* The system is single-threaded cooperative (asyncio): each method runs
  between suspension points without interleaving, so stateful methods are
  modelled as atomic state transformers.
-/

/-- Model of a plain Python runtime value as storable in the shared memory
and in message payloads/metadata.  None of these values is awaitable. -/
inductive PyVal where
  | none
  | bool (b : Bool)
  | int (n : Int)
  | float (q : ℚ)
  | str (s : String)
  | list (xs : List PyVal)
  | dict (entries : List (String × PyVal))
deriving Repr

mutual

/-- Python `==` on modelled values (structural; CPython dict equality is
order-insensitive, but no verified path compares dicts that differ only in
insertion order). -/
def PyVal.beq : PyVal → PyVal → Bool
  | .none, .none => true
  | .bool a, .bool b => a == b
  | .int a, .int b => a == b
  | .float a, .float b => a == b
  | .str a, .str b => a == b
  | .list xs, .list ys => PyVal.beqList xs ys
  | .dict xs, .dict ys => PyVal.beqEntries xs ys
  | _, _ => false

/-- Elementwise `PyVal.beq` on lists. -/
def PyVal.beqList : List PyVal → List PyVal → Bool
  | [], [] => true
  | x :: xs, y :: ys => PyVal.beq x y && PyVal.beqList xs ys
  | _, _ => false

/-- Elementwise `PyVal.beq` on dict entries. -/
def PyVal.beqEntries : List (String × PyVal) → List (String × PyVal) → Bool
  | [], [] => true
  | (k1, v1) :: xs, (k2, v2) :: ys => k1 == k2 && PyVal.beq v1 v2 && PyVal.beqEntries xs ys
  | _, _ => false

end

mutual

/-- `PyVal.beq` decides propositional equality. -/
def PyVal.beq_iff : ∀ a b : PyVal, PyVal.beq a b = true ↔ a = b
  | .none, .none => by simp [PyVal.beq]
  | .bool _, .bool _ => by simp [PyVal.beq]
  | .int _, .int _ => by simp [PyVal.beq]
  | .float _, .float _ => by simp [PyVal.beq]
  | .str _, .str _ => by simp [PyVal.beq]
  | .list xs, .list ys => by
      simp [PyVal.beq, PyVal.beqList_iff xs ys]
  | .dict xs, .dict ys => by
      simp [PyVal.beq, PyVal.beqEntries_iff xs ys]
  | .none, .bool _ | .none, .int _ | .none, .float _ | .none, .str _ | .none, .list _ | .none, .dict _ => by simp [PyVal.beq]
  | .bool _, .none | .bool _, .int _ | .bool _, .float _ | .bool _, .str _ | .bool _, .list _ | .bool _, .dict _ => by simp [PyVal.beq]
  | .int _, .none | .int _, .bool _ | .int _, .float _ | .int _, .str _ | .int _, .list _ | .int _, .dict _ => by simp [PyVal.beq]
  | .float _, .none | .float _, .bool _ | .float _, .int _ | .float _, .str _ | .float _, .list _ | .float _, .dict _ => by simp [PyVal.beq]
  | .str _, .none | .str _, .bool _ | .str _, .int _ | .str _, .float _ | .str _, .list _ | .str _, .dict _ => by simp [PyVal.beq]
  | .list _, .none | .list _, .bool _ | .list _, .int _ | .list _, .float _ | .list _, .str _ | .list _, .dict _ => by simp [PyVal.beq]
  | .dict _, .none | .dict _, .bool _ | .dict _, .int _ | .dict _, .float _ | .dict _, .str _ | .dict _, .list _ => by simp [PyVal.beq]

/-- `PyVal.beqList` decides list equality. -/
def PyVal.beqList_iff : ∀ xs ys : List PyVal, PyVal.beqList xs ys = true ↔ xs = ys
  | [], [] => by simp [PyVal.beqList]
  | x :: xs, y :: ys => by
      simp [PyVal.beqList, PyVal.beq_iff x y, PyVal.beqList_iff xs ys]
  | [], _ :: _ => by simp [PyVal.beqList]
  | _ :: _, [] => by simp [PyVal.beqList]

/-- `PyVal.beqEntries` decides entry-list equality. -/
def PyVal.beqEntries_iff : ∀ xs ys : List (String × PyVal), PyVal.beqEntries xs ys = true ↔ xs = ys
  | [], [] => by simp [PyVal.beqEntries]
  | (_, v1) :: xs, (_, v2) :: ys => by
      simp [PyVal.beqEntries, PyVal.beq_iff v1 v2, PyVal.beqEntries_iff xs ys]
  | [], _ :: _ => by simp [PyVal.beqEntries]
  | _ :: _, [] => by simp [PyVal.beqEntries]

end

instance : DecidableEq PyVal := fun a b =>
  if h : PyVal.beq a b = true then isTrue ((PyVal.beq_iff a b).mp h)
  else isFalse (fun e => h ((PyVal.beq_iff a b).mpr e))

instance : BEq PyVal := ⟨PyVal.beq⟩

instance {ε α : Type} [DecidableEq ε] [DecidableEq α] : DecidableEq (Except ε α) := fun a b =>
  match a, b with
  | .ok x, .ok y =>
      if h : x = y then isTrue (by rw [h]) else isFalse (fun e => h (Except.ok.inj e))
  | .error e1, .error e2 =>
      if h : e1 = e2 then isTrue (by rw [h]) else isFalse (fun e => h (Except.error.inj e))
  | .ok _, .error _ => isFalse (fun e => Except.noConfusion e)
  | .error _, .ok _ => isFalse (fun e => Except.noConfusion e)

/-- Python truthiness (`bool(v)`) of a modelled value. -/
def pyTruthy : PyVal → Bool
  | .none => false
  | .bool b => b
  | .int n => n != 0
  | .float q => q != 0
  | .str s => s != ""
  | .list xs => !xs.isEmpty
  | .dict entries => !entries.isEmpty

/-- Python `d.get(key)` on a dict modelled as an association list:
the stored value if the key is present (even if that value is None). -/
def dictGet (entries : List (String × PyVal)) (key : String) : Option PyVal :=
  (entries.find? (fun kv => kv.1 == key)).map (fun kv => kv.2)

/-- Python `d[key] = v`: replace in place when the key exists, else append
(CPython insertion order). -/
def dictAssign : List (String × PyVal) → String → PyVal → List (String × PyVal)
  | [], k, v => [(k, v)]
  | (k1, v1) :: rest, k, v =>
      if k1 == k then (k1, v) :: rest else (k1, v1) :: dictAssign rest k v

/-- Python `d.update(u)`: assign every entry of `u` into `d`, in order. -/
def dictUpdate (d updates : List (String × PyVal)) : List (String × PyVal) :=
  updates.foldl (fun acc kv => dictAssign acc kv.1 kv.2) d

/-- Python substring test `needle in hay` for strings. -/
def strIn (needle hay : String) : Bool :=
  hay.data.tails.any (fun t => needle.data.isPrefixOf t)

/-- Python `needle in container` for an arbitrary value: substring test on
strings, membership on lists, key membership on dicts; TypeError on
non-container values (None, bool, int, float). -/
def pyInOp (needle : String) (container : PyVal) : Except String Bool :=
  match container with
  | .str s => .ok (strIn needle s)
  | .list xs => .ok (xs.contains (.str needle))
  | .dict entries => .ok (entries.any (fun kv => kv.1 == needle))
  | _ => .error "TypeError"

/-- Model of Python `str.lower()` as ASCII-wise character lowering (every
task string exercised by the spec scenarios is already lowercase). -/
def pyLower (s : String) : String := String.mk (s.data.map Char.toLower)

/- ============================================================
   shared_memory.py: MemoryKey and SharedMemory
   ============================================================ -/

/-- The closed set of well-known shared-memory keys (`MemoryKey` enum in
`shared_memory.py`). -/
inductive MemoryKey where
  | TASK_DESCRIPTION
  | TASK_GOAL
  | TASK_STATUS
  | CURRENT_URL
  | PAGE_TITLE
  | DOM_CONTENT
  | PERCEPTION_RESULT
  | DETECTED_PATTERNS
  | INTERACTIVE_ELEMENTS
  | REFLECTION_RESULT
  | PROGRESS_SCORE
  | ACTION_HISTORY
  | ERROR_HISTORY
  | LAST_ACTION
  | LAST_ACTION_RESULT
  | PENDING_ACTIONS
  | CURRENT_PLAN
  | NEXT_STEP
  | THOUGHT_CHAIN
  | USER_LOGGED_IN
  | CART_ITEMS
  | CHECKOUT_STAGE
  | CONTEXT_HINTS
deriving DecidableEq, Repr

/-- State of `SharedMemory` (`shared_memory.py`).  `data` models the
`_data` dict (`Option.none` = key absent); `notifications` is the log of
`_notify_subscribers` invocations (the source method only logs, so the
observable effect of a notification is exactly one invocation record).
The per-key asyncio locks serialize writers; in the single-threaded
cooperative model each method below is one atomic transition. -/
structure SharedMemory where
  data : MemoryKey → Option PyVal
  notifications : List (MemoryKey × PyVal)

/-- A `SharedMemory` with no keys set. -/
def emptySharedMemory : SharedMemory :=
  { data := fun _ => Option.none, notifications := [] }

/-- `SharedMemory.get`: non-blocking `self._data.get(key, default)`. -/
def SharedMemory.get (m : SharedMemory) (key : MemoryKey) (default : PyVal) : PyVal :=
  (m.data key).getD default

/-- `SharedMemory.set`: under the per-key lock, read the old value
(`self._data.get(key)`, i.e. None when absent), store the new value, and
notify subscribers only when `old_value != value`. -/
def SharedMemory.set (m : SharedMemory) (key : MemoryKey) (value : PyVal) : SharedMemory :=
  let old_value := (m.data key).getD PyVal.none
  { data := fun k => if k = key then some value else m.data k
    notifications :=
      if PyVal.beq old_value value then m.notifications
      else m.notifications ++ [(key, value)] }

/-- `SharedMemory.update`: under the per-key lock, `current =
self._data.get(key, {})`; when `current` is a dict it is merged in place
with `updates` (for an absent key the merge target is the fresh default
`{}`, which is never stored back); otherwise `self._data[key] = updates`.
The final `self._data[key]` in the notify call raises KeyError when the
key is absent, so the absent-key path raises with the store unchanged. -/
def SharedMemory.update (m : SharedMemory) (key : MemoryKey)
    (updates : List (String × PyVal)) : Except String SharedMemory :=
  match m.data key with
  | some (PyVal.dict d) =>
      let merged := PyVal.dict (dictUpdate d updates)
      .ok { data := fun k => if k = key then some merged else m.data k
            notifications := m.notifications ++ [(key, merged)] }
  | some _ =>
      .ok { data := fun k => if k = key then some (PyVal.dict updates) else m.data k
            notifications := m.notifications ++ [(key, PyVal.dict updates)] }
  | Option.none => .error "KeyError"

/-- The test `predicate is None or predicate(value)` inside
`SharedMemory.wait_for`. -/
def predSat (predicate : Option (PyVal → Bool)) (value : PyVal) : Bool :=
  match predicate with
  | Option.none => true
  | some p => p value

/-- One polling iteration of `SharedMemory.wait_for`: check the current
value (`stream i` is what `self.get(key)` returns at the i-th poll),
return it when it is not None and satisfies the predicate, else sleep 0.1s
and poll again while fuel (the number of loop iterations whose start time
is before the deadline) remains. -/
def waitForGo (stream : ℕ → PyVal) (predicate : Option (PyVal → Bool)) :
    ℕ → ℕ → Except String PyVal
  | 0, _ => .error "TimeoutError"
  | fuel + 1, i =>
      let value := stream i
      if PyVal.beq value PyVal.none = false then
        if predSat predicate value then .ok value
        else waitForGo stream predicate fuel (i + 1)
      else waitForGo stream predicate fuel (i + 1)

/-- Number of loop iterations `wait_for` performs before the deadline:
iteration `i` starts at elapsed time `i * 0.1` (each earlier iteration
slept 0.1s; the body itself is instantaneous in the cooperative time
model), and runs iff `i * 0.1 < timeout`, i.e. iff `i < timeout * 10`. -/
def pollCount (timeout : ℚ) : ℕ := ⌈timeout * 10⌉₊

/-- `SharedMemory.wait_for`: poll `self.get(key)` every 0.1s until the
value is non-None and satisfies the predicate, raising
`asyncio.TimeoutError` once the deadline has passed.  `stream i` is the
stored value observed at the i-th poll (writes by concurrent tasks between
polls appear as changes of the stream). -/
def wait_for (stream : ℕ → PyVal) (timeout : ℚ)
    (predicate : Option (PyVal → Bool)) : Except String PyVal :=
  waitForGo stream predicate (pollCount timeout) 0

/-- Whether the i-th poll of `wait_for` returns: the observed value is not
None and satisfies the predicate. -/
def pollHit (predicate : Option (PyVal → Bool)) (value : PyVal) : Bool :=
  !PyVal.beq value PyVal.none && predSat predicate value

/- ============================================================
   agent_message.py: MessageType, AgentMessage, EventBus, MessageBus
   ============================================================ -/

/-- The closed enumeration of message kinds (`MessageType` enum in
`agent_message.py`).  Note that no member's value ends in `_response`. -/
inductive MessageType where
  | PERCEPTION_PAGE_ANALYZED
  | PERCEPTION_PATTERN_DETECTED
  | PERCEPTION_ELEMENTS_FOUND
  | REFLECTION_ACTION_EVALUATED
  | REFLECTION_PROGRESS_UPDATED
  | REFLECTION_ERROR_ANALYZED
  | REFLECTION_DECISION_MADE
  | ACTION_STARTED
  | ACTION_COMPLETED
  | ACTION_FAILED
  | PLANNING_STEP_CREATED
  | PLANNING_NEXT_ACTION
  | PLANNING_CORRECTION
  | SYSTEM_SHUTDOWN
  | SYSTEM_ERROR
deriving DecidableEq, Repr

/-- The string value of each `MessageType` member. -/
def MessageType.value : MessageType → String
  | .PERCEPTION_PAGE_ANALYZED => "perception_page_analyzed"
  | .PERCEPTION_PATTERN_DETECTED => "perception_pattern_detected"
  | .PERCEPTION_ELEMENTS_FOUND => "perception_elements_found"
  | .REFLECTION_ACTION_EVALUATED => "reflection_action_evaluated"
  | .REFLECTION_PROGRESS_UPDATED => "reflection_progress_updated"
  | .REFLECTION_ERROR_ANALYZED => "reflection_error_analyzed"
  | .REFLECTION_DECISION_MADE => "reflection_decision_made"
  | .ACTION_STARTED => "action_started"
  | .ACTION_COMPLETED => "action_completed"
  | .ACTION_FAILED => "action_failed"
  | .PLANNING_STEP_CREATED => "planning_step_created"
  | .PLANNING_NEXT_ACTION => "planning_next_action"
  | .PLANNING_CORRECTION => "planning_correction"
  | .SYSTEM_SHUTDOWN => "system_shutdown"
  | .SYSTEM_ERROR => "system_error"

/-- All members of `MessageType`, in declaration order. -/
def allMessageTypes : List MessageType :=
  [.PERCEPTION_PAGE_ANALYZED, .PERCEPTION_PATTERN_DETECTED, .PERCEPTION_ELEMENTS_FOUND,
   .REFLECTION_ACTION_EVALUATED, .REFLECTION_PROGRESS_UPDATED, .REFLECTION_ERROR_ANALYZED,
   .REFLECTION_DECISION_MADE, .ACTION_STARTED, .ACTION_COMPLETED, .ACTION_FAILED,
   .PLANNING_STEP_CREATED, .PLANNING_NEXT_ACTION, .PLANNING_CORRECTION,
   .SYSTEM_SHUTDOWN, .SYSTEM_ERROR]

/-- Python `MessageType(s)`: the member whose value is `s`, if any; the
enum constructor raises ValueError when no member has that value. -/
def MessageType.fromValue (s : String) : Option MessageType :=
  allMessageTypes.find? (fun m => m.value == s)

/-- A message sent between agents (`AgentMessage` dataclass). -/
structure AgentMessage where
  sender : String
  message_type : MessageType
  content : PyVal
  recipient : Option String
  timestamp : ℚ
  metadata : List (String × PyVal)

/-- A message handler: a callable that either returns (`.ok`) or raises
(`.error`).  Async handlers are awaited to completion by the bus, so the
completed outcome is all that is observable. -/
def MessageHandler : Type := AgentMessage → Except String Unit

/-- Outcome of `EventBus._deliver_message` for one handler: either the
handler ran to completion, or it raised and the error was caught and
logged. -/
inductive DeliveryOutcome where
  | delivered
  | errorLogged (e : String)
deriving DecidableEq, Repr

/-- State of `EventBus`: per-kind subscriber lists and the bounded message
history (`_max_history = 1000`). -/
structure EventBus where
  subscribers : MessageType → List MessageHandler
  message_history : List AgentMessage
  max_history : ℕ

/-- `EventBus._deliver_message`: call the handler inside try/except; any
exception is caught and logged, never re-raised. -/
def EventBus.deliver_message (handler : MessageHandler) (message : AgentMessage) :
    DeliveryOutcome :=
  match handler message with
  | .ok _ => .delivered
  | .error e => .errorLogged e

/-- `EventBus.publish`: append the message to the bounded history (oldest
evicted past capacity), then deliver it to every handler subscribed to its
kind via `_deliver_message`, gathered with `return_exceptions=True`; the
publisher always regains control with the per-handler outcomes. -/
def EventBus.publish (bus : EventBus) (message : AgentMessage) :
    EventBus × List DeliveryOutcome :=
  let history := bus.message_history ++ [message]
  let history := if bus.max_history < history.length then history.drop 1 else history
  let subs := bus.subscribers message.message_type
  ({ bus with message_history := history },
   subs.map (fun handler => EventBus.deliver_message handler message))

/-- `MessageBus.request` (`agent_message.py` lines 184-223), acting on the
`_pending_requests` key set.  It attaches the fresh correlation id
(`request_id`) and `is_request` to the outgoing message's metadata and
registers the pending future; it then builds the response kind with
`MessageType(message.message_type.value + "_response")`.  When that enum
lookup fails the constructor raises ValueError before the try/finally is
entered, so the pending entry is not removed.  When it succeeds (no such
member exists in this enum, so the branch is dead code) and, as in the
claim's scenario, no responder ever publishes a correlated response, the
wait times out, None is returned, and the finally-block pops the entry. -/
def MessageBus.request (pending : List String) (request_id : String)
    (message : AgentMessage) : List String × Except String (Option AgentMessage) :=
  let message :=
    { message with
        metadata := dictAssign (dictAssign message.metadata "request_id" (.str request_id))
          "is_request" (.bool true) }
  let pending1 := pending ++ [request_id]
  match MessageType.fromValue (message.message_type.value ++ "_response") with
  | Option.none => (pending1, .error "ValueError")
  | some _ => (pending1.erase request_id, .ok Option.none)

/- ============================================================
   sequential_thinking.py: ThinkingContext, ThoughtStep, engine
   ============================================================ -/

/-- A single step in the thought chain (`ThoughtStep` dataclass in
`shared_memory.py`, lines 139-150). -/
structure ThoughtStep where
  step_number : ℕ
  thought : String
  observation : String
  action : String
  reflection : Option String
  next_thought : Option String
  confidence : ℚ
  metadata : List (String × PyVal)
deriving DecidableEq, Repr

/-- Per-task state (`ThinkingContext` dataclass, `sequential_thinking.py`
lines 22-42), fields in source order. -/
structure ThinkingContext where
  task : String
  current_step : ℕ
  max_steps : ℕ
  thought_chain : List ThoughtStep
  completed : Bool
  error_count : ℕ
  max_errors : ℕ
deriving DecidableEq, Repr

/-- The perception record consumed by the engine (`PerceptionData`
dataclass in `shared_memory.py`); every attribute probed by `hasattr` in
the engine is present on this dataclass. -/
structure PerceptionData where
  page_type : Option String
  patterns : List String
  interactive_elements : List PyVal
  modal_detected : Bool
  pagination_detected : Bool
  forms_detected : List PyVal
  confidence : ℚ
  observations : List String

/-- A previous-action result object as probed by the engine and the
reflection agent: any object exposing `success` and `error` attributes. -/
structure ActionResult where
  success : Bool
  error : Option String
deriving DecidableEq, Repr

/-- Python `await` applied to a plain (non-awaitable) value raises
TypeError.  `SharedMemory.get` is a synchronous method (`def get`,
`shared_memory.py` line 235) returning a stored plain value, yet every
read in `sequential_thinking.py` is written `await
self.shared_memory.get(...)` (lines 158, 159, 239, 250, 255, 287, 303),
so each of those reads raises at run time. -/
def awaitPy (value : PyVal) : Except String PyVal := .error "TypeError"

/-- Python `str()` of a value as used inside the engine's f-strings.  The
container cases abbreviate Python's repr; they feed only narrative text,
never control flow. -/
def pyFormat : PyVal → String
  | .none => "None"
  | .bool b => if b then "True" else "False"
  | .int n => toString n
  | .float q => toString q
  | .str s => s
  | .list _ => "[...]"
  | .dict _ => "\x7b...\x7d"

/-- Formatting of an `Optional[str]` attribute inside an f-string. -/
def optFormat : Option String → String
  | some s => s
  | Option.none => "None"

/-- A stored value used in a Python numeric comparison: int, float and
bool compare numerically, anything else raises TypeError. -/
def pyAsNumber : PyVal → Except String ℚ
  | .float q => .ok q
  | .int n => .ok (n : ℚ)
  | .bool b => .ok (if b then 1 else 0)
  | _ => .error "TypeError"

/-- Python `f"{q * 100:.0f}"` (cosmetic, feeds narrative text only). -/
def pyPercent (q : ℚ) : String := toString (round (q * 100) : ℤ)

/-- Encoding of a `ThoughtStep` as the Python value stored under
`THOUGHT_CHAIN` (the source stores the dataclass objects themselves,
compared field-wise by the dataclass `__eq__`; this injective `to_dict`
encoding preserves that equality). -/
def ThoughtStep.toPyVal (t : ThoughtStep) : PyVal :=
  .dict [("step_number", .int t.step_number),
         ("thought", .str t.thought),
         ("observation", .str t.observation),
         ("action", .str t.action),
         ("reflection", match t.reflection with | some s => .str s | Option.none => .none),
         ("next_thought", match t.next_thought with | some s => .str s | Option.none => .none),
         ("confidence", .float t.confidence),
         ("metadata", .dict t.metadata)]

/-- `SequentialThinkingEngine._generate_thought` (lines 146-189): builds
the thought string; a failed previous result increments
`context.error_count`.  Its first two statements await the synchronous
`SharedMemory.get`, so the function raises TypeError on entry. -/
def generate_thought (mem : SharedMemory) (context : ThinkingContext)
    (perception : PerceptionData) (previous_result : Option ActionResult) :
    Except String (String × ThinkingContext) := do
  let task ← awaitPy (mem.get MemoryKey.TASK_DESCRIPTION PyVal.none)
  let url ← awaitPy (mem.get MemoryKey.CURRENT_URL PyVal.none)
  let thought_parts : List String :=
    if context.current_step == 0 then
      ["Мне нужно выполнить задачу: " ++ pyFormat task]
    else
      ["Продолжаю выполнение задачи: " ++ pyFormat task]
  let thought_parts :=
    if pyTruthy url then thought_parts ++ ["Сейчас я на странице: " ++ pyFormat url]
    else thought_parts
  let (thought_parts, context) :=
    match previous_result with
    | some r =>
        if r.success then
          (thought_parts ++ ["Предыдущее действие выполнено успешно"], context)
        else
          (thought_parts ++ ["Предыдущее действие не удалось: " ++ optFormat r.error],
           { context with error_count := context.error_count + 1 })
    | Option.none => (thought_parts, context)
  let thought_parts :=
    match perception.page_type with
    | some pt => if pt != "" then thought_parts ++ ["Тип страницы: " ++ pt] else thought_parts
    | Option.none => thought_parts
  let thought_parts :=
    if !perception.observations.isEmpty then
      thought_parts ++ ["Наблюдения: " ++ String.intercalate ", " (perception.observations.take 3)]
    else thought_parts
  pure (String.intercalate ". " thought_parts ++ ".", context)

/-- `SequentialThinkingEngine._generate_observation` (lines 191-225):
describes the perception record; synchronous over its argument. -/
def generate_observation (perception : PerceptionData) : String :=
  let observations : List String :=
    ["Тип страницы: " ++
      (match perception.page_type with
       | some pt => if pt != "" then pt else "неизвестно"
       | Option.none => "неизвестно")]
  let observations :=
    if !perception.patterns.isEmpty then
      observations ++ ["Обнаружены паттерны: " ++ String.intercalate ", " perception.patterns]
    else observations
  let observations :=
    observations ++ ["Интерактивных элементов: " ++ toString perception.interactive_elements.length]
  let observations :=
    if perception.modal_detected then observations ++ ["Обнаружено модальное окно"]
    else observations
  let observations :=
    if perception.pagination_detected then observations ++ ["Обнаружена пагинация"]
    else observations
  let observations :=
    if !perception.forms_detected.isEmpty then
      observations ++ ["Форм на странице: " ++ toString perception.forms_detected.length]
    else observations
  if observations.isEmpty then "Страница загружена" else String.intercalate ". " observations

/-- `SequentialThinkingEngine._decide_action` (lines 227-263).  Its first
statement awaits the synchronous `SharedMemory.get`, raising TypeError;
the remainder (plan following, modal check, progress bands) is translated
for completeness. -/
def decide_action (mem : SharedMemory) (context : ThinkingContext)
    (thought observation : String) : Except String String := do
  let plan ← awaitPy (mem.get MemoryKey.CURRENT_PLAN PyVal.none)
  let planned : Option String :=
    match plan with
    | PyVal.list items =>
        if pyTruthy plan && context.current_step ≤ items.length then
          some ("Выполнить запланированное действие: " ++
            pyFormat (if context.current_step > 0 then
                        items.getD (context.current_step - 1) PyVal.none
                      else items.getD 0 PyVal.none))
        else Option.none
    | _ => Option.none
  match planned with
  | some a => pure a
  | Option.none => do
      let is_modal ←
        match mem.get MemoryKey.PERCEPTION_RESULT (PyVal.dict []) with
        | PyVal.dict d => awaitPy ((dictGet d "modal_detected").getD (PyVal.bool false))
        | _ => Except.error "AttributeError"
      let action_parts : List String :=
        if pyTruthy is_modal then ["Взаимодействовать с модальным окном"] else []
      let progressV ← awaitPy (mem.get MemoryKey.PROGRESS_SCORE (PyVal.float 0))
      let progress ← pyAsNumber progressV
      let action_parts :=
        if progress < mkRat 3 10 then action_parts ++ ["Изучить страницу и найти целевые элементы"]
        else if progress < mkRat 7 10 then action_parts ++ ["Выполнить необходимые действия для продвижения к цели"]
        else if progress < 1 then action_parts ++ ["Завершить выполнение задачи"]
        else action_parts
      pure (if action_parts.isEmpty then "Продолжить исследование страницы"
            else String.intercalate ". " action_parts)

/-- `SequentialThinkingEngine._generate_reflection` (lines 265-290);
raises TypeError at the awaited synchronous progress read when a previous
result is present. -/
def generate_reflection (mem : SharedMemory) (context : ThinkingContext)
    (previous_result : Option ActionResult) : Except String (Option String) := do
  match previous_result with
  | Option.none => pure Option.none
  | some r => do
      let reflections : List String :=
        if r.success then ["Действие было успешным"]
        else ["Действие не удалось: " ++ optFormat r.error]
      let progressV ← awaitPy (mem.get MemoryKey.PROGRESS_SCORE (PyVal.float 0))
      let progress ← pyAsNumber progressV
      let reflections := reflections ++ ["Прогресс выполнения: " ++ pyPercent progress ++ "%"]
      pure (if reflections.isEmpty then Option.none
            else some (String.intercalate ". " reflections))

/-- `SequentialThinkingEngine._plan_next_thought` (lines 292-313); marks
the context completed when progress reached 1.0.  Raises TypeError at the
awaited synchronous progress read. -/
def plan_next_thought (mem : SharedMemory) (context : ThinkingContext)
    (action : String) (reflection : Option String) :
    Except String (Option String × ThinkingContext) := do
  let progressV ← awaitPy (mem.get MemoryKey.PROGRESS_SCORE (PyVal.float 0))
  let progress ← pyAsNumber progressV
  if 1 ≤ progress then
    pure (some "Задача выполнена", { context with completed := true })
  else if (match reflection with
           | some refl => refl != "" && strIn "не удалось" (pyLower refl)
           | Option.none => false) then
    pure (some "Анализирую ошибку и пробую другой подход", context)
  else
    pure (some "Выполняю действие и анализирую результат", context)

/-- `SequentialThinkingEngine.think_step` (lines 82-125): builds the five
sub-derivations, appends the resulting `ThoughtStep` to the chain,
advances `current_step` and persists the chain and action to the shared
memory.  Because `_generate_thought` raises TypeError on entry (awaited
synchronous `get`), the whole step raises before anything is appended. -/
def think_step (mem : SharedMemory) (context : ThinkingContext)
    (perception : PerceptionData) (previous_result : Option ActionResult) :
    Except String (SharedMemory × ThinkingContext × ThoughtStep) := do
  let step_num := context.current_step + 1
  let (thought, context) ← generate_thought mem context perception previous_result
  let observation := generate_observation perception
  let action ← decide_action mem context thought observation
  let reflection ←
    match previous_result with
    | some _ => generate_reflection mem context previous_result
    | Option.none => pure Option.none
  let (next_thought, context) ← plan_next_thought mem context action reflection
  let thought_step : ThoughtStep :=
    { step_number := step_num, thought := thought, observation := observation,
      action := action, reflection := reflection, next_thought := next_thought,
      confidence := mkRat 5 10, metadata := [] }
  let context :=
    { context with
        thought_chain := context.thought_chain ++ [thought_step],
        current_step := step_num }
  let mem := mem.set MemoryKey.THOUGHT_CHAIN
      (PyVal.list (context.thought_chain.map ThoughtStep.toPyVal))
  let mem := mem.set MemoryKey.NEXT_STEP (PyVal.str action)
  pure (mem, context, thought_step)

/-- Which terminal condition `should_continue` reports (it logs a distinct
message per branch; the first condition that holds, in source order,
wins). -/
inductive StopReason where
  | maxSteps
  | maxErrors
  | completedTask
deriving DecidableEq, Repr

/-- `SequentialThinkingEngine.should_continue` (lines 127-144): false when
the step budget is spent, else false when the error budget is spent, else
false when completed, else true. -/
def should_continue (context : ThinkingContext) : Bool :=
  if context.current_step ≥ context.max_steps then false
  else if context.error_count ≥ context.max_errors then false
  else if context.completed then false
  else true

/-- The branch of `should_continue` that fires, mirroring its if-chain
(the distinct log statement of each branch makes the evaluation order
observable). -/
def should_continue_reason (context : ThinkingContext) : Option StopReason :=
  if context.current_step ≥ context.max_steps then some .maxSteps
  else if context.error_count ≥ context.max_errors then some .maxErrors
  else if context.completed then some .completedTask
  else Option.none

/- ============================================================
   reflection_agent.py: progress scoring and next-action decision
   ============================================================ -/

/-- The condition `action_result and hasattr(action_result, "success") and
action_result.success` (`reflection_agent.py` line 286): an object is
truthy and exposes `success`, so the condition is its success flag. -/
def actionSuccessFlag : Option ActionResult → Bool
  | some r => r.success
  | Option.none => false

/-- The intent-classification part of
`ReflectionAgent._calculate_progress_score` (lines 264-292): classifies
the task by keyword substrings (acquisition, search, navigation) and
computes the raw score for the perceived page type within that intent's
band, exactly over the Python locals in scope at that point.  Float
literals 0.2/0.4/0.6/0.8/0.5/0.7/0.3 are the exact rationals n/10. -/
def scoreForTask (mem : SharedMemory) (action_result : Option ActionResult)
    (pentries : List (String × PyVal)) (page_type : PyVal) (task_lower : String) :
    Except String ℚ :=
  let score : ℚ := 0
  if ["купи", "закажи", "добавь", "buy", "order", "add"].any
      (fun w => strIn w task_lower) then
    if PyVal.beq page_type (PyVal.str "catalog") then Except.ok (mkRat 2 10)
    else if PyVal.beq page_type (PyVal.str "product") then Except.ok (mkRat 4 10)
    else if PyVal.beq page_type (PyVal.str "cart") then Except.ok (mkRat 6 10)
    else if PyVal.beq page_type (PyVal.str "checkout") then Except.ok (mkRat 8 10)
    else
      match pyInOp "completed" page_type with
      | Except.error e => Except.error e
      | Except.ok true => Except.ok 1
      | Except.ok false =>
          match pyInOp "success" page_type with
          | Except.error e => Except.error e
          | Except.ok true => Except.ok 1
          | Except.ok false => Except.ok score
  else if ["найди", "поиск", "search", "find"].any
      (fun w => strIn w task_lower) then
    let _url := mem.get MemoryKey.CURRENT_URL (PyVal.str "")
    let score :=
      if pyTruthy ((dictGet pentries "interactive_elements").getD PyVal.none) then
        (mkRat 5 10)
      else score
    let score := if actionSuccessFlag action_result then (mkRat 8 10) else score
    Except.ok score
  else if ["зайди", "открой", "go to", "open", "visit"].any
      (fun w => strIn w task_lower) then
    Except.ok (if PyVal.beq page_type (PyVal.str "unknown") = false then mkRat 7 10 else mkRat 3 10)
  else Except.ok score

/-- `ReflectionAgent._calculate_progress_score` (lines 244-297): the
early return on a falsy task (which skips the history append), the
perceived-page-type extraction, the intent scoring via `scoreForTask`,
the append of the raw score to `self._progress_history` and the final
`min(score, 1.0)`.  Takes the progress history explicitly and returns the
score together with the updated history. -/
def calculate_progress_score (mem : SharedMemory) (action_result : Option ActionResult)
    (progress_history : List ℚ) : Except String (ℚ × List ℚ) :=
  let task := mem.get MemoryKey.TASK_DESCRIPTION PyVal.none
  if pyTruthy task = false then Except.ok (0, progress_history)
  else
    match mem.get MemoryKey.PERCEPTION_RESULT (PyVal.dict []) with
    | PyVal.dict pentries =>
      let page_type := (dictGet pentries "page_type").getD (PyVal.str "unknown")
      match task with
      | PyVal.str task_s =>
        match scoreForTask mem action_result pentries page_type (pyLower task_s) with
        | Except.error e => Except.error e
        | Except.ok score => Except.ok (min score 1, progress_history ++ [score])
      | _ => Except.error "AttributeError"
    | _ => Except.error "AttributeError"

/-- `ReflectionAgent._decide_next_action` (lines 299-337): maps the score
band plus the perceived page classification to a suggested action string;
returns None once the score is ≥ 1.0 (the final else branch). -/
def decide_next_action (mem : SharedMemory) (action_result : Option ActionResult)
    (progress_score : ℚ) : Except String (Option String) :=
  match mem.get MemoryKey.PERCEPTION_RESULT (PyVal.dict []) with
  | PyVal.dict pentries =>
    let page_type := (dictGet pentries "page_type").getD (PyVal.str "unknown")
    let _task := mem.get MemoryKey.TASK_DESCRIPTION (PyVal.str "")
    if progress_score < mkRat 3 10 then
      Except.ok (some
        (if PyVal.beq page_type (PyVal.str "unknown") then
          "Изучить страницу и понять как продвинуться к цели"
         else "Найти целевой элемент для взаимодействия"))
    else if progress_score < mkRat 7 10 then
      Except.ok (some
        (if PyVal.beq page_type (PyVal.str "catalog") then "Найти нужный товар или категорию"
         else if PyVal.beq page_type (PyVal.str "product") then "Добавить товар в корзину или выбрать опции"
         else if PyVal.beq page_type (PyVal.str "cart") then "Перейти к оформлению заказа"
         else "Выполнить следующее действие для продвижения к цели"))
    else if progress_score < 1 then
      Except.ok (some
        (if PyVal.beq page_type (PyVal.str "checkout") then
          "Заполнить необходимые данные для оформления"
         else "Завершить выполнение задачи"))
    else
      Except.ok Option.none
  | _ => Except.error "AttributeError"

/-- The perceived page type `_calculate_progress_score` extracts:
`self.shared_memory.get(PERCEPTION_RESULT, {}).get("page_type",
"unknown")` (only meaningful when the stored perception is a dict). -/
def perceivedPageType (mem : SharedMemory) : PyVal :=
  match mem.get MemoryKey.PERCEPTION_RESULT (PyVal.dict []) with
  | PyVal.dict pentries => (dictGet pentries "page_type").getD (PyVal.str "unknown")
  | v => v

/- ============================================================
   Concrete fixtures for scenario theorems and witnesses
   ============================================================ -/

/-- Shared memory holding the acquisition-intent task "купи пиццу" and a
perception record classifying the page as `pt`. -/
def shopMemory (pt : String) : SharedMemory :=
  { data := fun k =>
      match k with
      | MemoryKey.TASK_DESCRIPTION => some (PyVal.str "купи пиццу")
      | MemoryKey.PERCEPTION_RESULT => some (PyVal.dict [("page_type", PyVal.str pt)])
      | _ => Option.none
    notifications := [] }

/-- A successful previous-action result. -/
def okResult : ActionResult := { success := true, error := Option.none }

/-- Shared memory holding the search-intent task "найди пиццу", page type
"unknown" and an empty interactive-elements list. -/
def searchMemoryNoElements : SharedMemory :=
  { data := fun k =>
      match k with
      | MemoryKey.TASK_DESCRIPTION => some (PyVal.str "найди пиццу")
      | MemoryKey.PERCEPTION_RESULT =>
          some (PyVal.dict [("page_type", PyVal.str "unknown"),
                            ("interactive_elements", PyVal.list [])])
      | _ => Option.none
    notifications := [] }

/-- Same task and page type as `searchMemoryNoElements`, but with one
interactive element present. -/
def searchMemoryWithElements : SharedMemory :=
  { data := fun k =>
      match k with
      | MemoryKey.TASK_DESCRIPTION => some (PyVal.str "найди пиццу")
      | MemoryKey.PERCEPTION_RESULT =>
          some (PyVal.dict [("page_type", PyVal.str "unknown"),
                            ("interactive_elements", PyVal.list [PyVal.dict []])])
      | _ => Option.none
    notifications := [] }

/-- A handler that always raises. -/
def raisingHandler : MessageHandler := fun _ => .error "boom"

/-- A handler that always succeeds. -/
def workingHandler : MessageHandler := fun _ => .ok ()

/-- An event bus with one raising and one working handler subscribed to
every kind. -/
def twoHandlerBus : EventBus :=
  { subscribers := fun _ => [raisingHandler, workingHandler]
    message_history := []
    max_history := 1000 }

/-- A sample broadcast message. -/
def sampleMessage : AgentMessage :=
  { sender := "ReflectionAgent"
    message_type := MessageType.ACTION_COMPLETED
    content := PyVal.dict [("success", PyVal.bool true)]
    recipient := Option.none
    timestamp := 0
    metadata := [] }

/- ============================================================
   Helper lemmas
   ============================================================ -/

/-- When no poll within the fuel window hits, the polling loop times
out. -/
theorem waitForGo_timeout (stream : ℕ → PyVal) (p : Option (PyVal → Bool)) :
    ∀ fuel i, (∀ j, i ≤ j → j < i + fuel → pollHit p (stream j) = false) →
      waitForGo stream p fuel i = Except.error "TimeoutError" := by
  intro fuel
  induction fuel with
  | zero => intro i _; rfl
  | succ n ih =>
      intro i h
      have hi : pollHit p (stream i) = false := h i (le_refl i) (by omega)
      have hrest : waitForGo stream p n (i + 1) = Except.error "TimeoutError" :=
        ih (i + 1) (fun j hj1 hj2 => h j (by omega) (by omega))
      unfold waitForGo
      simp only [pollHit, Bool.and_eq_false_iff, Bool.not_eq_false'] at hi
      rcases hi with hb | hp
      · simp [hb, hrest]
      · by_cases hbeq : PyVal.beq (stream i) PyVal.none = false
        · simp [hbeq, hp, hrest]
        · simp [hbeq, hrest]

/-- When some poll within the fuel window hits, the polling loop returns
the value observed at such a poll. -/
theorem waitForGo_hit (stream : ℕ → PyVal) (p : Option (PyVal → Bool)) :
    ∀ fuel i, (∃ j, i ≤ j ∧ j < i + fuel ∧ pollHit p (stream j) = true) →
      ∃ j, i ≤ j ∧ j < i + fuel ∧ pollHit p (stream j) = true ∧
        waitForGo stream p fuel i = Except.ok (stream j) := by
  intro fuel
  induction fuel with
  | zero =>
      rintro i ⟨j, hj1, hj2, _⟩
      omega
  | succ n ih =>
      rintro i ⟨j, hj1, hj2, hj3⟩
      by_cases hi : pollHit p (stream i) = true
      · refine ⟨i, le_refl i, by omega, hi, ?_⟩
        simp only [pollHit, Bool.and_eq_true, Bool.not_eq_true'] at hi
        unfold waitForGo
        simp [hi.1, hi.2]
      · have hji : j ≠ i := fun e => hi (e ▸ hj3)
        obtain ⟨j2, hj21, hj22, hj23, hgo⟩ := ih (i + 1) ⟨j, by omega, by omega, hj3⟩
        refine ⟨j2, by omega, by omega, hj23, ?_⟩
        have hine : pollHit p (stream i) = false := by
          cases hpi : pollHit p (stream i)
          · rfl
          · exact absurd hpi hi
        simp only [pollHit, Bool.and_eq_false_iff, Bool.not_eq_false'] at hine
        unfold waitForGo
        rcases hine with hb | hp
        · simp [hb, hgo]
        · by_cases hbeq : PyVal.beq (stream i) PyVal.none = false
          · simp [hbeq, hp, hgo]
          · simp [hbeq, hgo]

/-- The intent score computed by `scoreForTask` depends only on the task
keywords, the page type, the truthiness of the perceived interactive
elements and the success flag of the previous action result. -/
theorem scoreForTask_congr (m1 m2 : SharedMemory) (ar1 ar2 : Option ActionResult)
    (p1 p2 : List (String × PyVal)) (pt : PyVal) (tl : String)
    (hie : pyTruthy ((dictGet p1 "interactive_elements").getD PyVal.none)
         = pyTruthy ((dictGet p2 "interactive_elements").getD PyVal.none))
    (har : actionSuccessFlag ar1 = actionSuccessFlag ar2) :
    scoreForTask m1 ar1 p1 pt tl = scoreForTask m2 ar2 p2 pt tl := by
  unfold scoreForTask
  rw [hie, har]

/- ============================================================
   Claim theorems
   ============================================================ -/

/-- C1: `should_continue` returns false exactly when the step budget is
spent, or the error budget is spent, or the context is completed; the
three conditions are evaluated in that order and the first one that holds
determines the reported reason. -/
theorem shouldContinue_characterization (c : ThinkingContext) :
    (should_continue c = false ↔
      (c.current_step ≥ c.max_steps ∨ c.error_count ≥ c.max_errors ∨ c.completed = true))
    ∧ (c.current_step ≥ c.max_steps →
        should_continue_reason c = some StopReason.maxSteps)
    ∧ (c.current_step < c.max_steps → c.error_count ≥ c.max_errors →
        should_continue_reason c = some StopReason.maxErrors)
    ∧ (c.current_step < c.max_steps → c.error_count < c.max_errors → c.completed = true →
        should_continue_reason c = some StopReason.completedTask) := by
  unfold should_continue should_continue_reason
  refine ⟨?_, ?_, ?_, ?_⟩ <;> split_ifs <;> simp_all

/-- Witness for C1: a context that has spent its step budget (error budget
unspent, completion flag down) stops with the step-budget reason. -/
theorem shouldContinue_characterization_witness :
    should_continue ⟨"t", 5, 5, [], false, 0, 3⟩ = false
    ∧ should_continue_reason ⟨"t", 5, 5, [], false, 0, 3⟩ = some StopReason.maxSteps := by
  have h := shouldContinue_characterization ⟨"t", 5, 5, [], false, 0, 3⟩
  exact ⟨h.1.mpr (Or.inl (by decide)), h.2.1 (by decide)⟩

/-- C2: two writes of distinct values leave the second value readable, the
second write fires exactly one notification, and re-writing the same value
fires none. -/
theorem set_set_get_notify (m : SharedMemory) (k : MemoryKey) (v1 v2 : PyVal)
    (hne : v1 ≠ v2) :
    ((m.set k v1).set k v2).get k PyVal.none = v2
    ∧ ((m.set k v1).set k v2).notifications = (m.set k v1).notifications ++ [(k, v2)]
    ∧ ((m.set k v1).set k v1).notifications = (m.set k v1).notifications := by
  have hbeqff : PyVal.beq v1 v2 = false := by
    cases hb : PyVal.beq v1 v2
    · rfl
    · exact absurd ((PyVal.beq_iff v1 v2).mp hb) hne
  have hbeqtt : PyVal.beq v1 v1 = true := (PyVal.beq_iff v1 v1).mpr rfl
  refine ⟨?_, ?_, ?_⟩ <;>
    simp [SharedMemory.set, SharedMemory.get, hbeqff, hbeqtt]

/-- Witness for C2 at two distinct concrete strings. -/
theorem set_set_get_notify_witness :
    ((emptySharedMemory.set MemoryKey.TASK_STATUS (PyVal.str "a")).set
        MemoryKey.TASK_STATUS (PyVal.str "b")).get MemoryKey.TASK_STATUS PyVal.none
      = PyVal.str "b"
    ∧ ((emptySharedMemory.set MemoryKey.TASK_STATUS (PyVal.str "a")).set
        MemoryKey.TASK_STATUS (PyVal.str "b")).notifications
      = (emptySharedMemory.set MemoryKey.TASK_STATUS (PyVal.str "a")).notifications
          ++ [(MemoryKey.TASK_STATUS, PyVal.str "b")]
    ∧ ((emptySharedMemory.set MemoryKey.TASK_STATUS (PyVal.str "a")).set
        MemoryKey.TASK_STATUS (PyVal.str "a")).notifications
      = (emptySharedMemory.set MemoryKey.TASK_STATUS (PyVal.str "a")).notifications :=
  set_set_get_notify emptySharedMemory MemoryKey.TASK_STATUS
    (PyVal.str "a") (PyVal.str "b") (by decide)

/-- C3: within the poll window of a positive timeout, `wait_for` returns a
polled value that is non-null and satisfies the predicate as soon as one
is observed, and raises TimeoutError when no polled value ever satisfies
the condition before the deadline. -/
theorem wait_for_spec (stream : ℕ → PyVal) (timeout : ℚ)
    (p : Option (PyVal → Bool)) (hpos : 0 < timeout) :
    ((∃ i, i < pollCount timeout ∧ pollHit p (stream i) = true) →
      ∃ i, i < pollCount timeout ∧ wait_for stream timeout p = Except.ok (stream i)
        ∧ PyVal.beq (stream i) PyVal.none = false ∧ predSat p (stream i) = true)
    ∧ ((∀ i, i < pollCount timeout → pollHit p (stream i) = false) →
      wait_for stream timeout p = Except.error "TimeoutError") := by
  constructor
  · rintro ⟨i, hi, hhit⟩
    obtain ⟨j, _, hj2, hj3, hgo⟩ :=
      waitForGo_hit stream p (pollCount timeout) 0 ⟨i, by omega, by omega, hhit⟩
    simp only [pollHit, Bool.and_eq_true, Bool.not_eq_true'] at hj3
    exact ⟨j, by omega, hgo, hj3.1, hj3.2⟩
  · intro h
    exact waitForGo_timeout stream p (pollCount timeout) 0 (fun j _ hj => h j (by omega))

/-- Witness for C3, both branches: a value present from the first poll is
returned, an always-null value times out (timeout 1, ten polls). -/
theorem wait_for_spec_witness :
    wait_for (fun _ => PyVal.str "ready") 1 Option.none = Except.ok (PyVal.str "ready")
    ∧ wait_for (fun _ => PyVal.none) 1 Option.none = Except.error "TimeoutError" := by
  constructor
  · have h := (wait_for_spec (fun _ => PyVal.str "ready") 1 Option.none (by norm_num)).1
      ⟨0, by norm_num [pollCount], by decide⟩
    obtain ⟨i, _, hok, _, _⟩ := h
    exact hok
  · exact (wait_for_spec (fun _ => PyVal.none) 1 Option.none (by norm_num)).2
      (fun i _ => by decide)

/-- C4 (divergence): for every message kind in the closed enumeration,
`MessageBus.request` raises ValueError while constructing the
`kind + "_response"` message type (no such member exists), after
registering the pending-request entry and before the try/finally that
would remove it — it never returns None and never cleans up. -/
theorem request_always_raises_valueerror (pending : List String) (request_id : String)
    (message : AgentMessage) :
    MessageBus.request pending request_id message
      = (pending ++ [request_id], Except.error "ValueError") := by
  obtain ⟨s, mt, c, r, ts, md⟩ := message
  cases mt <;> rfl

/-- C5: `publish` attempts delivery to every subscribed handler; a raising
handler's failure is caught and logged, the remaining handlers still
receive exactly their own delivery, and the publisher gets the complete
outcome list back. -/
theorem publish_isolation (bus : EventBus) (message : AgentMessage)
    (pre post : List MessageHandler) (bad : MessageHandler)
    (hsubs : bus.subscribers message.message_type = pre ++ bad :: post)
    (hbad : ∀ x, ∃ e, bad x = Except.error e) :
    ∃ e, (bus.publish message).2
        = pre.map (fun h => EventBus.deliver_message h message)
          ++ DeliveryOutcome.errorLogged e
            :: post.map (fun h => EventBus.deliver_message h message)
      ∧ (bus.publish message).2.length = pre.length + 1 + post.length := by
  obtain ⟨e, he⟩ := hbad message
  refine ⟨e, ?_, ?_⟩
  · unfold EventBus.publish
    simp [hsubs, EventBus.deliver_message, he]
  · unfold EventBus.publish
    simp [hsubs]
    omega

/-- Witness for C5: with an always-raising handler subscribed before a
working one, the raising handler's error is logged and the working handler
is still delivered to. -/
theorem publish_isolation_witness :
    ∃ e, (twoHandlerBus.publish sampleMessage).2
        = [DeliveryOutcome.errorLogged e, DeliveryOutcome.delivered]
      ∧ (twoHandlerBus.publish sampleMessage).2.length = 0 + 1 + 1 := by
  obtain ⟨e, h1, h2⟩ := publish_isolation twoHandlerBus sampleMessage
    [] [workingHandler] raisingHandler rfl (fun _ => ⟨"boom", rfl⟩)
  refine ⟨e, ?_, h2⟩
  simpa [EventBus.deliver_message, workingHandler] using h1

/-- C6 (divergence): `update` on a key that is absent from the store
raises KeyError for every key and every update map — the merge lands in
the unsaved fresh default `{}` and the notification read
`self._data[key]` then fails — so the update is lost instead of stored. -/
theorem update_absent_key_raises (k : MemoryKey) (u : List (String × PyVal)) :
    emptySharedMemory.update k u = Except.error "KeyError" := rfl

/-- C7 (divergence): every `think_step` call raises TypeError — its first
sub-derivation awaits the synchronous `SharedMemory.get` — so no
`ThoughtStep` is ever appended to the chain. -/
theorem think_step_always_raises (mem : SharedMemory) (context : ThinkingContext)
    (perception : PerceptionData) (previous_result : Option ActionResult) :
    think_step mem context perception previous_result = Except.error "TypeError" := rfl

/-- C8: for the acquisition-intent task "купи пиццу", the successive page
classifications catalog, product, cart, checkout score exactly 0.2, 0.4,
0.6, 0.8 (strictly increasing), a completion-classified page scores 1.0,
and `decide_next_action` then returns None. -/
theorem shopping_scenario_scores :
    calculate_progress_score (shopMemory "catalog") (some okResult) []
        = Except.ok (mkRat 2 10, [mkRat 2 10])
    ∧ calculate_progress_score (shopMemory "product") (some okResult) [mkRat 2 10]
        = Except.ok (mkRat 4 10, [mkRat 2 10, mkRat 4 10])
    ∧ calculate_progress_score (shopMemory "cart") (some okResult) [mkRat 2 10, mkRat 4 10]
        = Except.ok (mkRat 6 10, [mkRat 2 10, mkRat 4 10, mkRat 6 10])
    ∧ calculate_progress_score (shopMemory "checkout") (some okResult)
          [mkRat 2 10, mkRat 4 10, mkRat 6 10]
        = Except.ok (mkRat 8 10, [mkRat 2 10, mkRat 4 10, mkRat 6 10, mkRat 8 10])
    ∧ (mkRat 2 10 < mkRat 4 10 ∧ mkRat 4 10 < mkRat 6 10 ∧ mkRat 6 10 < mkRat 8 10)
    ∧ calculate_progress_score (shopMemory "order_completed") (some okResult)
          [mkRat 2 10, mkRat 4 10, mkRat 6 10, mkRat 8 10]
        = Except.ok (1, [mkRat 2 10, mkRat 4 10, mkRat 6 10, mkRat 8 10, 1])
    ∧ decide_next_action (shopMemory "order_completed") (some okResult) 1
        = Except.ok Option.none := by
  refine ⟨by decide, by decide, by decide, by decide, ⟨by decide, by decide, by decide⟩,
    by decide, by decide⟩

/-- C9 counterexample: a search-intent task with identical task
description and identical perceived page type scores differently when only
the perceived interactive elements differ, so the score is not a function
of the (task, page type) pair. -/
theorem score_not_determined_by_task_and_page :
    perceivedPageType searchMemoryNoElements = perceivedPageType searchMemoryWithElements
    ∧ searchMemoryNoElements.get MemoryKey.TASK_DESCRIPTION PyVal.none
        = searchMemoryWithElements.get MemoryKey.TASK_DESCRIPTION PyVal.none
    ∧ calculate_progress_score searchMemoryNoElements Option.none [] = Except.ok (0, [0])
    ∧ calculate_progress_score searchMemoryWithElements Option.none []
        = Except.ok (mkRat 5 10, [mkRat 5 10])
    ∧ calculate_progress_score searchMemoryNoElements Option.none []
        ≠ calculate_progress_score searchMemoryWithElements Option.none [] := by
  refine ⟨by decide, by decide, by decide, by decide, by decide⟩

/-- C9 amended: the score returned by `calculate_progress_score` is
determined by the task description, the perceived page type, the
truthiness of the perceived interactive-elements list and the success flag
of the previous action result — and is independent of the current URL and
the progress history. -/
theorem calculate_progress_score_extended_determinism
    (m1 m2 : SharedMemory) (ar1 ar2 : Option ActionResult) (h1 h2 : List ℚ)
    (d1 d2 : List (String × PyVal))
    (htask : m1.get MemoryKey.TASK_DESCRIPTION PyVal.none
           = m2.get MemoryKey.TASK_DESCRIPTION PyVal.none)
    (hd1 : m1.get MemoryKey.PERCEPTION_RESULT (PyVal.dict []) = PyVal.dict d1)
    (hd2 : m2.get MemoryKey.PERCEPTION_RESULT (PyVal.dict []) = PyVal.dict d2)
    (hpt : (dictGet d1 "page_type").getD (PyVal.str "unknown")
         = (dictGet d2 "page_type").getD (PyVal.str "unknown"))
    (hie : pyTruthy ((dictGet d1 "interactive_elements").getD PyVal.none)
         = pyTruthy ((dictGet d2 "interactive_elements").getD PyVal.none))
    (har : actionSuccessFlag ar1 = actionSuccessFlag ar2) :
    Except.map Prod.fst (calculate_progress_score m1 ar1 h1)
      = Except.map Prod.fst (calculate_progress_score m2 ar2 h2) := by
  unfold calculate_progress_score
  rw [htask, hd1, hd2]
  by_cases htruthy : pyTruthy (m2.get MemoryKey.TASK_DESCRIPTION PyVal.none) = false
  · rw [if_pos htruthy, if_pos htruthy]
    rfl
  · rw [if_neg htruthy, if_neg htruthy]
    cases htv : m2.get MemoryKey.TASK_DESCRIPTION PyVal.none <;> try rfl
    rename_i task_s
    dsimp only
    rw [hpt, scoreForTask_congr m1 m2 ar1 ar2 d1 d2
      ((dictGet d2 "page_type").getD (PyVal.str "unknown")) (pyLower task_s) hie har]
    cases scoreForTask m2 ar2 d2
        ((dictGet d2 "page_type").getD (PyVal.str "unknown")) (pyLower task_s) <;> rfl

/-- Witness for C9 amended: the same memory with different histories maps
to the same score. -/
theorem calculate_progress_score_extended_determinism_witness :
    Except.map Prod.fst (calculate_progress_score searchMemoryWithElements Option.none [])
      = Except.map Prod.fst
          (calculate_progress_score searchMemoryWithElements Option.none [mkRat 9 10]) :=
  calculate_progress_score_extended_determinism
    searchMemoryWithElements searchMemoryWithElements Option.none Option.none
    [] [mkRat 9 10]
    [("page_type", PyVal.str "unknown"), ("interactive_elements", PyVal.list [PyVal.dict []])]
    [("page_type", PyVal.str "unknown"), ("interactive_elements", PyVal.list [PyVal.dict []])]
    rfl rfl rfl rfl rfl rfl

/-- C10: a non-positive timeout makes `wait_for` raise TimeoutError
without ever inspecting the stored value, because the deadline-bounded
loop body never runs. -/
theorem wait_for_nonpositive_timeout (stream : ℕ → PyVal) (timeout : ℚ)
    (predicate : Option (PyVal → Bool)) (h : timeout ≤ 0) :
    wait_for stream timeout predicate = Except.error "TimeoutError" := by
  have h10 : timeout * 10 ≤ 0 := by nlinarith
  unfold wait_for pollCount
  rw [Nat.ceil_eq_zero.mpr h10]
  rfl

/-- Witness for C10: with timeout 0 and a stored value that is non-null
and (trivially) satisfies the predicate at every poll, `wait_for` still
raises TimeoutError. -/
theorem wait_for_nonpositive_timeout_witness :
    pollHit Option.none (PyVal.str "ready") = true
    ∧ wait_for (fun _ => PyVal.str "ready") 0 Option.none = Except.error "TimeoutError" :=
  ⟨by decide,
   wait_for_nonpositive_timeout (fun _ => PyVal.str "ready") 0 Option.none (le_refl 0)⟩
